import Mathlib

/-!
Verification of the SpeechCraft audio synthesis delivery pipeline.

The development shallowly embeds the audio subsystem of the application:

* `base64ToWavBlob` (services/geminiService.ts, lines 32-76): the WAV/RIFF
  container encoder.  JavaScript `DataView.setUint32`/`setUint16` store the
  value modulo 2^32 / 2^16 in little-endian order; byte sequences are
  modelled as `List Nat` of values below 256, and the `atob` step is
  abstracted away by working directly on the decoded byte sequence.
* `decodePCM16` (services/geminiService.ts, lines 94-122): interpreting a
  raw byte sequence as signed 16-bit little-endian mono samples normalised
  to rationals by division by 32768.  In the source, `new Int16Array(buf)`
  throws a `RangeError` when the byte length is not a multiple of 2; the
  error taxonomy of the specification names this failure `UnalignedFrame`.
* `playRawAudioRun` (services/geminiService.ts, lines 124-156): the
  playback entry point, whose body is wrapped in a catch-all that logs,
  invokes the caller's completion callback, and resolves with a no-op stop
  function.  Failure points (device resume, base64 decode, frame
  alignment, buffer rendering) are modelled explicitly.
* `PlaySession`/`stepSession`: the lifecycle of one started
  `AudioBufferSourceNode`.  Per the Web Audio specification, the node's
  `ended` event fires exactly once when the node stops playing for any
  reason - reaching the end of the buffer or an explicit `stop()` call -
  so a listener registered with `addEventListener('ended', onEnded)` runs
  in both cases.
* `St`/`applyOp`: the practice-studio user-interface state machine
  (unnamed React component, `handleGenerateAndPlayDemo`,
  `handlePreviewVoice`, the voice dropdown and the App-level mode switch).
  React state updates are modelled as immediate; each event handler is
  modelled as running to completion, except the voice-preview handler,
  whose long network suspension is split into a start phase and a finish
  phase so that the in-flight window guarded by `previewingVoiceId` is
  visible.  Switching the app to editor mode unmounts the practice studio,
  which runs the cleanup effect (stopping the current demo session) and
  destroys the component state; mounting starts from the initial state.
-/

namespace SpeechCraft

/-! ## Byte-level helpers (DataView little-endian writes and reads) -/

/-- Little-endian bytes of a 16-bit store, as performed by
`DataView.setUint16(off, v, true)`: the value is taken modulo 2^16. -/
def u16le (v : Nat) : List Nat :=
  [v % 256, v / 256 % 256]

/-- Little-endian bytes of a 32-bit store, as performed by
`DataView.setUint32(off, v, true)`: the value is taken modulo 2^32. -/
def u32le (v : Nat) : List Nat :=
  [v % 256, v / 256 % 256, v / 65536 % 256, v / 16777216 % 256]

/-- Byte of a byte sequence at an index (0 past the end). -/
def byteAt : List Nat → Nat → Nat
  | [], _ => 0
  | a :: _, 0 => a
  | _ :: l, n + 1 => byteAt l n

/-- Little-endian 16-bit read at an offset. -/
def readU16 (l : List Nat) (off : Nat) : Nat :=
  byteAt l off + 256 * byteAt l (off + 1)

/-- Little-endian 32-bit read at an offset. -/
def readU32 (l : List Nat) (off : Nat) : Nat :=
  byteAt l off + 256 * byteAt l (off + 1) + 65536 * byteAt l (off + 2)
    + 16777216 * byteAt l (off + 3)

/-- Code points of a string, as written by the source helper `writeString`
(`view.setUint8(offset + i, string.charCodeAt(i))`). -/
def asciiCodes (s : String) : List Nat := s.data.map Char.toNat

/-! ## WavEncoder: `base64ToWavBlob` (services/geminiService.ts 32-76)

The source decodes the base64 argument with `atob` into `bytes` and then
builds a 44-byte RIFF header followed by the payload.  The embedding takes
the decoded byte sequence directly. -/

/-- The 44 header bytes constructed by `base64ToWavBlob` for a payload of
`dataLen` bytes at `sampleRate` Hz, field by field in source order. -/
def wavHeader (sampleRate dataLen : Nat) : List Nat :=
  asciiCodes "RIFF"
    ++ u32le (36 + dataLen)
    ++ asciiCodes "WAVE"
    ++ asciiCodes "fmt "
    ++ u32le 16
    ++ u16le 1
    ++ u16le 1
    ++ u32le sampleRate
    ++ u32le (sampleRate * 2)
    ++ u16le 2
    ++ u16le 16
    ++ asciiCodes "data"
    ++ u32le dataLen

/-- `base64ToWavBlob`: the bytes of the produced blob, namely the header
followed by the unmodified PCM payload (`wavBytes.set(bytes, 44)`). -/
def base64ToWavBlob (bytes : List Nat) (sampleRate : Nat := 24000) : List Nat :=
  wavHeader sampleRate bytes.length ++ bytes

/-! ## SampleDecoder: `decode` / `decodePCM16` (services/geminiService.ts 94-122) -/

/-- Decode-stage failures.  `invalidBase64` is the `atob` failure on
malformed input; `unalignedFrame` is the specification's name for the
`RangeError` thrown by `new Int16Array(data.buffer)` when the byte length
is not a multiple of 2. -/
inductive DecodeErr where
  | invalidBase64
  | unalignedFrame
deriving DecidableEq

/-- The signed 16-bit little-endian value of a byte pair, as read from an
`Int16Array` element. -/
def toInt16 (lo hi : Nat) : Int :=
  let v : Nat := lo % 256 + 256 * (hi % 256)
  if v < 32768 then (v : Int) else (v : Int) - 65536

/-- The sample list produced by the conversion loop of `decodePCM16`
(mono): each consecutive byte pair becomes `dataInt16[i] / 32768.0`.  The
quotients are exactly representable, so rationals model the Float32
channel data faithfully. -/
def pcm16Samples : List Nat → List ℚ
  | lo :: hi :: rest => ((toInt16 lo hi : ℚ) / 32768) :: pcm16Samples rest
  | _ => []

/-- `decodePCM16` on an already-base64-decoded byte sequence:
`new Int16Array(data.buffer)` throws when the length is odd, otherwise the
loop fills the buffer with the normalised samples. -/
def decodePCM16 (bytes : List Nat) : Except DecodeErr (List ℚ) :=
  if bytes.length % 2 ≠ 0 then .error .unalignedFrame
  else .ok (pcm16Samples bytes)

/-! ## PlaybackEngine: `playRawAudio` (services/geminiService.ts 124-156) -/

/-- The state of the lazily-created process-wide `AudioContext` at the
time of a `playRawAudio` call: whether it is suspended, and whether a
`resume()` call would succeed. -/
structure AudioCtxState where
  suspended : Bool
  resumeOk : Bool
deriving DecidableEq

/-- The internal failure points inside the `try` block of `playRawAudio`:
a rejected `ctx.resume()`, an `atob` failure, the odd-byte-length
`RangeError`, and any failure of buffer creation / source start. -/
inductive PlayFail where
  | deviceUnavailable
  | invalidBase64
  | unalignedFrame
  | renderFail
deriving DecidableEq

/-- The `try` block of `playRawAudio` up to `source.start()`.  The input
byte sequence is `none` when the base64 argument is malformed (`atob`
throws), otherwise the decoded bytes; `renderOk` abstracts the engine
calls (`createBuffer`, `createBufferSource`, `start`) succeeding.  The
resume step is awaited before decoding and rendering, so its failure
takes precedence; on success the returned flag records whether
`ctx.resume()` ran (exactly when the context was suspended), which
happens before any rendering. -/
def pipelineTry (ctx : AudioCtxState) (decoded : Option (List Nat))
    (renderOk : Bool) : Except PlayFail Bool :=
  if ctx.suspended = true ∧ ctx.resumeOk = false then .error .deviceUnavailable
  else
    match decoded with
    | none => .error .invalidBase64
    | some bytes =>
      match decodePCM16 bytes with
      | .error _ => .error .unalignedFrame
      | .ok _ => if renderOk = true then .ok ctx.suspended else .error .renderFail

/-- The outcome of one `playRawAudio` call as observed by its caller. -/
structure PlayResult where
  /-- The rejection value of the returned promise (`none` = resolved). -/
  rejectedWith : Option PlayFail
  /-- Whether a source node was started (`source.start()` reached). -/
  started : Bool
  /-- Whether `ctx.resume()` completed before rendering began. -/
  resumedBeforeStart : Bool
  /-- Whether the catch handler invoked `onEnded` synchronously. -/
  onEndedNow : Bool
  /-- Whether the returned stop function is the no-op of the catch path. -/
  stopNoop : Bool
deriving DecidableEq

/-- `playRawAudio`: the whole body sits inside `try ... catch`, and the
catch handler logs, calls `onEnded` when supplied, and returns a no-op
function - so the promise always resolves and always yields a callable
stop handle. -/
def playRawAudioRun (ctx : AudioCtxState) (decoded : Option (List Nat))
    (renderOk : Bool) (hasOnEnded : Bool) : PlayResult :=
  match pipelineTry ctx decoded renderOk with
  | .ok resumed =>
    { rejectedWith := none, started := true, resumedBeforeStart := resumed
      onEndedNow := false, stopNoop := false }
  | .error _ =>
    { rejectedWith := none, started := false, resumedBeforeStart := false
      onEndedNow := hasOnEnded, stopNoop := true }

/-! ## One playback session: the started `AudioBufferSourceNode`

`playRawAudio` registers the caller's callback with
`source.addEventListener('ended', onEnded)` and returns a closure running
`try (source.stop(); source.disconnect()) catch (e) ()`.  Per the Web
Audio specification, a started node fires its `ended` event exactly once,
when it stops playing for any reason - end of buffer or an explicit
`stop()` - and `stop()` on an already-started node never throws
(`disconnect()` with no arguments never throws either). -/

/-- Rendering state of a started source node. -/
inductive SrcState where
  | playing
  | finished
deriving DecidableEq

/-- One started playback session: the node state, whether an `onEnded`
listener was registered, and how many times it has been invoked. -/
structure PlaySession where
  src : SrcState
  hasOnEnded : Bool
  onEndedCount : Nat
deriving DecidableEq

/-- The two ways a playing node stops: reaching the natural end of its
buffer, or the stop closure calling `source.stop()`. -/
inductive SessEv where
  | naturalEnd
  | stopCall
deriving DecidableEq

/-- The node finishes and delivers its one-shot `ended` event, running the
registered listener if any. -/
def fireEnded (s : PlaySession) : PlaySession :=
  { s with
    src := .finished
    onEndedCount := s.onEndedCount + (if s.hasOnEnded then 1 else 0) }

/-- Both events finish a playing node and fire `ended`; a finished node
ignores further events (the event fires at most once, and `stop()` on a
finished node has no effect). -/
def stepSession (s : PlaySession) (_e : SessEv) : PlaySession :=
  match s.src with
  | .finished => s
  | .playing => fireEnded s

/-- A session after a sequence of events. -/
def runSession (evs : List SessEv) (s : PlaySession) : PlaySession :=
  evs.foldl stepSession s

/-- The session as `playRawAudio` starts it: playing, callback registered
iff the caller supplied one, not yet fired. -/
def initSession (hasOnEnded : Bool) : PlaySession :=
  { src := .playing, hasOnEnded := hasOnEnded, onEndedCount := 0 }

/-- The body of the returned stop closure: `source.stop()` then
`source.disconnect()`.  On a started node neither call throws. -/
def stopAttempt (s : PlaySession) : Except String PlaySession :=
  .ok (stepSession s .stopCall)

/-- The stop closure returned by `playRawAudio`: the body is wrapped in
`try ... catch (e) ()`, so the second component (whether an error escaped
to the caller) is always `false`. -/
def stopClosure (s : PlaySession) : PlaySession × Bool :=
  match stopAttempt s with
  | .ok s2 => (s2, false)
  | .error _ => (s, false)

/-! ## PracticeStudio state machine (unnamed source file part_002)

State of the mounted practice studio together with the App-level mode and
the engine-level set of started source nodes.  React state updates are
modelled as immediate.  `demoClick` is `handleGenerateAndPlayDemo` run to
completion (the Generate / Play button is disabled while
`isGeneratingDemo` is set, so no second click can interleave with the
generation await); the voice-preview handler is split into its start
phase (`previewStart`, up to the `generateDemonstrationAudio` network
await) and its continuation (`previewFinish`), so the in-flight window
guarded by `previewingVoiceId` is visible.  Switching the App to editor
mode unmounts the studio: the cleanup effect calls the stored stop
closure and the component state is destroyed; mounting starts fresh. -/

/-- A started source node: its id, whether it is still rendering, the
base64 data it was started from, and whether it is the demo session (the
demo registers `onEnded = () => setIsPlayingDemo(false)`; previews
register no callback and discard the stop function). -/
structure Session where
  id : Nat
  playing : Bool
  data : String
  isDemo : Bool
deriving DecidableEq

/-- Combined App / PracticeStudio / engine state.  `demoGenCount` and
`previewGenCount` instrument how many times `generateDemonstrationAudio`
has been invoked from each handler. -/
structure St where
  practiceMounted : Bool
  script : String
  selectedVoice : String
  demoAudioData : Option String
  isPlayingDemo : Bool
  stopDemoRef : Option Nat
  previewingVoiceId : Option String
  demoGenCount : Nat
  previewGenCount : Nat
  sessions : List Session
  nextId : Nat
deriving DecidableEq

/-- Initial state: editor mode, empty script, first catalog voice
selected (`VOICE_OPTIONS[0].id = Puck`), no cache, nothing playing. -/
def initSt : St :=
  { practiceMounted := false, script := "", selectedVoice := "Puck",
    demoAudioData := none, isPlayingDemo := false, stopDemoRef := none,
    previewingVoiceId := none, demoGenCount := 0, previewGenCount := 0,
    sessions := [], nextId := 0 }

/-- The `!script.trim()` guard of the source: `trim()` removes leading
and trailing whitespace, so the trimmed script is empty exactly when
every character is whitespace. -/
def trimEmpty (t : String) : Bool := t.data.all Char.isWhitespace

/-- `playRawAudio` succeeding: a fresh source node starts rendering. -/
def startSrc (s : St) (d : String) (demo : Bool) : St :=
  { s with
    sessions := s.sessions ++ [{ id := s.nextId, playing := true, data := d, isDemo := demo }],
    nextId := s.nextId + 1 }

/-- `source.stop()` on the node with the given id: it stops rendering. -/
def stopSrc (s : St) (i : Nat) : St :=
  { s with sessions :=
      s.sessions.map (fun x => if x.id = i then { x with playing := false } else x) }

/-- `handleGenerateAndPlayDemo`, run to completion.  `g` is the outcome
`generateDemonstrationAudio(script.substring(0, 500), selectedVoice.id)`
would have (`none` = the call rejects); it is consulted only on the
branch that actually generates.  Branches in source order: the play / stop
toggle, playing the cached data, the empty-script guard, and
generate-then-autoplay (the catch alerts and stores nothing). -/
def demoClick (g : Option String) (s : St) : St :=
  if s.practiceMounted = false then s
  else if s.script = "" then s
  else if s.isPlayingDemo = true ∧ s.stopDemoRef.isSome then
    match s.stopDemoRef with
    | some i => { stopSrc s i with isPlayingDemo := false }
    | none => s
  else
    match s.demoAudioData with
    | some d =>
      { startSrc s d true with isPlayingDemo := true, stopDemoRef := some s.nextId }
    | none =>
      if trimEmpty s.script = true then s
      else
        match g with
        | some d =>
          let s1 := { s with demoGenCount := s.demoGenCount + 1, demoAudioData := some d }
          { startSrc s1 d true with isPlayingDemo := true, stopDemoRef := some s1.nextId }
        | none => { s with demoGenCount := s.demoGenCount + 1 }

/-- The synchronous prefix of `handlePreviewVoice`: the
`previewingVoiceId === voice.id` guard returns silently; otherwise the
id is recorded and `generateDemonstrationAudio` is invoked. -/
def previewStart (v : String) (s : St) : St :=
  if s.practiceMounted = false then s
  else if s.previewingVoiceId = some v then s
  else { s with previewingVoiceId := some v, previewGenCount := s.previewGenCount + 1 }

/-- The continuation of `handlePreviewVoice` for the outstanding request:
on success `playRawAudio(audioData)` starts a source node (no callback,
stop function discarded); on failure only the error is logged; the
`finally` clears `previewingVoiceId` either way. -/
def previewFinish (v : String) (g : Option String) (s : St) : St :=
  if s.previewingVoiceId = some v then
    match g with
    | some d => { startSrc s d false with previewingVoiceId := none }
    | none => { s with previewingVoiceId := none }
  else s

/-- Clicking an entry of the voice dropdown: `setSelectedVoice(voice)` and
`if (demoAudioData) setDemoAudioData(null)` - the cached demo is cleared
on every click, whether or not the voice actually changes. -/
def voiceClick (v : String) (s : St) : St :=
  if s.practiceMounted = false then s
  else { s with selectedVoice := v, demoAudioData := none }

/-- The `ended` event of a still-rendering node: it stops, and the demo
session's listener runs `setIsPlayingDemo(false)`. -/
def srcEnded (i : Nat) (s : St) : St :=
  match s.sessions.find? (fun x => x.id = i) with
  | some sess =>
    if sess.playing = true then
      let s1 := stopSrc s i
      if sess.isDemo = true then { s1 with isPlayingDemo := false } else s1
    else s
  | none => s

/-- Switching the App to editor mode: the studio unmounts, its cleanup
effect calls the stored demo stop closure, and the component state is
destroyed (reset to its initial values). -/
def gotoEditor (s : St) : St :=
  if s.practiceMounted = false then s
  else
    let s1 :=
      match s.stopDemoRef with
      | some i => stopSrc s i
      | none => s
    { s1 with
      practiceMounted := false
      selectedVoice := "Puck"
      demoAudioData := none
      isPlayingDemo := false
      stopDemoRef := none
      previewingVoiceId := none }

/-- Switching the App to practice mode mounts the studio afresh. -/
def gotoPractice (s : St) : St :=
  if s.practiceMounted = true then s else { s with practiceMounted := true }

/-- Submitting new source text.  The script is edited through the
`ScriptEditor`, which is rendered only in editor mode, so a submission
can only happen while the studio is unmounted. -/
def editScript (t : String) (s : St) : St :=
  if s.practiceMounted = false then { s with script := t } else s

/-- User-interface and engine events. -/
inductive Op where
  | demoClick (g : Option String)
  | previewStart (v : String)
  | previewFinish (v : String) (g : Option String)
  | srcEnded (i : Nat)
  | voiceClick (v : String)
  | gotoEditor
  | gotoPractice
  | editScript (t : String)
deriving DecidableEq

/-- Apply one event. -/
def applyOp (s : St) : Op → St
  | .demoClick g => demoClick g s
  | .previewStart v => previewStart v s
  | .previewFinish v g => previewFinish v g s
  | .srcEnded i => srcEnded i s
  | .voiceClick v => voiceClick v s
  | .gotoEditor => gotoEditor s
  | .gotoPractice => gotoPractice s
  | .editScript t => editScript t s

/-- The state after a sequence of events from process start. -/
def runOps (ops : List Op) : St := ops.foldl applyOp initSt

/-- How many source nodes are rendering concurrently. -/
def playingCount (s : St) : Nat := s.sessions.countP (fun x => x.playing)

/-- Whether an event belongs to the voice-preview feature. -/
def Op.isPreview : Op → Bool
  | .previewStart _ => true
  | .previewFinish _ _ => true
  | _ => false

/-- The generation-cache key of the specification: the selected voice id
together with the submitted text truncated to 500 characters
(`script.substring(0, 500)`). -/
def cacheKey (s : St) : String × List Char := (s.selectedVoice, s.script.data.take 500)

/-- Demo-playback mutual-exclusion invariant: at most one node renders,
and any rendering node is the demo session tracked by `isPlayingDemo` and
`stopDemoRef`. -/
def DemoInv (s : St) : Prop :=
  playingCount s ≤ 1 ∧
  ∀ x ∈ s.sessions, x.playing = true → s.isPlayingDemo = true ∧ s.stopDemoRef = some x.id

/-- The operation sequence of the C1 counterexample: generate and play the
demo, then preview a voice while the demo is still rendering. -/
def mutexCexOps : List Op :=
  [.editScript "hello", .gotoPractice, .demoClick (some "demoA"),
   .previewStart "Kore", .previewFinish "Kore" (some "previewB")]

/-- The operation sequence of the C3 counterexample: generate and play,
let the demo end, re-click the already-selected voice (the key is
unchanged), then play again. -/
def cacheCexOps : List Op :=
  [.editScript "hi", .gotoPractice, .demoClick (some "d1"),
   .srcEnded 0, .voiceClick "Puck", .demoClick (some "d2")]

/-- A preview-free operation sequence exercising generate, toggle stop,
natural end and cached replay (used as a concrete instance of the demo
mutual-exclusion theorem). -/
def demoOnlyOps : List Op :=
  [.editScript "x", .gotoPractice, .demoClick (some "d"), .demoClick none,
   .srcEnded 0, .demoClick (some "e")]

/-- A run reaching a state whose cache holds a generated asset while
nothing is playing (used as a concrete instance of the cache theorem). -/
def cacheHitOps : List Op :=
  [.editScript "hi", .gotoPractice, .demoClick (some "d1"), .srcEnded 0]

/-- A run with a voice-preview request outstanding (used as a concrete
instance of the single-flight theorem). -/
def inFlightOps : List Op :=
  [.gotoPractice, .previewStart "Puck"]

end SpeechCraft

namespace SpeechCraft

/-! ## Claim theorems for the encoder and decoder -/

/-- The encoder output in explicit byte form: unfolding the header
construction and the little-endian stores. -/
theorem blob_bytes (b : List Nat) (sr : Nat) :
    base64ToWavBlob b sr =
      82 :: 73 :: 70 :: 70 ::
      ((36 + b.length) % 256) :: ((36 + b.length) / 256 % 256) ::
      ((36 + b.length) / 65536 % 256) :: ((36 + b.length) / 16777216 % 256) ::
      87 :: 65 :: 86 :: 69 ::
      102 :: 109 :: 116 :: 32 ::
      16 :: 0 :: 0 :: 0 ::
      1 :: 0 ::
      1 :: 0 ::
      (sr % 256) :: (sr / 256 % 256) :: (sr / 65536 % 256) :: (sr / 16777216 % 256) ::
      (sr * 2 % 256) :: (sr * 2 / 256 % 256) :: (sr * 2 / 65536 % 256) ::
      (sr * 2 / 16777216 % 256) ::
      2 :: 0 ::
      16 :: 0 ::
      100 :: 97 :: 116 :: 97 ::
      (b.length % 256) :: (b.length / 256 % 256) :: (b.length / 65536 % 256) ::
      (b.length / 16777216 % 256) :: b := by
  simp [base64ToWavBlob, wavHeader, u32le, u16le, asciiCodes]

/-- Claim C4: for every PCM byte sequence and sample rate (whose 32-bit
header fields fit), `base64ToWavBlob` produces exactly 44 header bytes
followed by the unmodified payload, with every header field bit-for-bit
as specified, all multi-byte fields little-endian; in particular the
ASCII tags, `ChunkSize = 36 + dataLen`, `Subchunk1Size = 16`,
`AudioFormat = 1`, `NumChannels = 1`, `SampleRate`, `ByteRate =
SampleRate * 2`, `BlockAlign = 2`, `BitsPerSample = 16` and
`Subchunk2Size = dataLen`; and a 0-length payload at 24000 Hz yields a
44-byte file with `ChunkSize` 36 and `Subchunk2Size` 0. -/
theorem wav_header_exact (b : List Nat) (sr : Nat)
    (hsr : sr * 2 < 4294967296) (hd : 36 + b.length < 4294967296) :
    (base64ToWavBlob b sr).length = 44 + b.length ∧
    (base64ToWavBlob b sr).take 4 = asciiCodes "RIFF" ∧
    readU32 (base64ToWavBlob b sr) 4 = 36 + b.length ∧
    ((base64ToWavBlob b sr).drop 8).take 4 = asciiCodes "WAVE" ∧
    ((base64ToWavBlob b sr).drop 12).take 4 = asciiCodes "fmt " ∧
    readU32 (base64ToWavBlob b sr) 16 = 16 ∧
    readU16 (base64ToWavBlob b sr) 20 = 1 ∧
    readU16 (base64ToWavBlob b sr) 22 = 1 ∧
    readU32 (base64ToWavBlob b sr) 24 = sr ∧
    readU32 (base64ToWavBlob b sr) 28 = sr * 2 ∧
    readU16 (base64ToWavBlob b sr) 32 = 2 ∧
    readU16 (base64ToWavBlob b sr) 34 = 16 ∧
    ((base64ToWavBlob b sr).drop 36).take 4 = asciiCodes "data" ∧
    readU32 (base64ToWavBlob b sr) 40 = b.length ∧
    (base64ToWavBlob b sr).drop 44 = b ∧
    (base64ToWavBlob ([] : List Nat) 24000).length = 44 ∧
    readU32 (base64ToWavBlob ([] : List Nat) 24000) 4 = 36 ∧
    readU32 (base64ToWavBlob ([] : List Nat) 24000) 40 = 0 := by
  rw [blob_bytes]
  have hlen : (82 :: 73 :: 70 :: 70 ::
      ((36 + b.length) % 256) :: ((36 + b.length) / 256 % 256) ::
      ((36 + b.length) / 65536 % 256) :: ((36 + b.length) / 16777216 % 256) ::
      87 :: 65 :: 86 :: 69 :: 102 :: 109 :: 116 :: 32 ::
      16 :: 0 :: 0 :: 0 :: 1 :: 0 :: 1 :: 0 ::
      (sr % 256) :: (sr / 256 % 256) :: (sr / 65536 % 256) :: (sr / 16777216 % 256) ::
      (sr * 2 % 256) :: (sr * 2 / 256 % 256) :: (sr * 2 / 65536 % 256) ::
      (sr * 2 / 16777216 % 256) :: 2 :: 0 :: 16 :: 0 ::
      100 :: 97 :: 116 :: 97 ::
      (b.length % 256) :: (b.length / 256 % 256) :: (b.length / 65536 % 256) ::
      (b.length / 16777216 % 256) :: b).length = 44 + b.length := by
    simp; omega
  refine ⟨hlen, rfl, ?_, rfl, rfl, rfl, rfl, rfl, ?_, ?_, rfl, rfl, rfl, ?_, rfl, rfl, rfl, rfl⟩
  · show (36 + b.length) % 256 + 256 * ((36 + b.length) / 256 % 256)
      + 65536 * ((36 + b.length) / 65536 % 256)
      + 16777216 * ((36 + b.length) / 16777216 % 256) = 36 + b.length
    omega
  · show sr % 256 + 256 * (sr / 256 % 256) + 65536 * (sr / 65536 % 256)
      + 16777216 * (sr / 16777216 % 256) = sr
    omega
  · show sr * 2 % 256 + 256 * (sr * 2 / 256 % 256) + 65536 * (sr * 2 / 65536 % 256)
      + 16777216 * (sr * 2 / 16777216 % 256) = sr * 2
    omega
  · show b.length % 256 + 256 * (b.length / 256 % 256) + 65536 * (b.length / 65536 % 256)
      + 16777216 * (b.length / 16777216 % 256) = b.length
    omega

/-- Witness for C4 at a concrete payload and the default sample rate. -/
theorem wav_header_exact_witness :
    24000 * 2 < 4294967296 ∧ 36 + ([7, 9] : List Nat).length < 4294967296 ∧
    readU32 (base64ToWavBlob [7, 9] 24000) 40 = 2 := by
  refine ⟨by norm_num, by norm_num, ?_⟩
  exact (wav_header_exact [7, 9] 24000 (by norm_num) (by norm_num)).2.2.2.2.2.2.2.2.2.2.2.2.2.1

/-- Claim C5: for any byte sequence of even length, encoding it with the
WAV encoder and stripping the first 44 bytes of the result reproduces the
original byte sequence exactly. -/
theorem wav_roundtrip (b : List Nat) (sr : Nat) (h : Even b.length) :
    (base64ToWavBlob b sr).drop 44 = b := by
  rw [blob_bytes]
  rfl

/-- Witness for C5 at a concrete even-length payload. -/
theorem wav_roundtrip_witness :
    Even ([1, 2, 3, 4] : List Nat).length ∧
    (base64ToWavBlob [1, 2, 3, 4] 24000).drop 44 = [1, 2, 3, 4] := by
  constructor
  · decide
  · exact wav_roundtrip [1, 2, 3, 4] 24000 (by decide)

/-- Claim C6: decoding a payload whose decoded raw byte length is odd
fails with the `UnalignedFrame` decode error (no silent truncation), and
decoding an even-length run of zero bytes yields an all-zero (silence)
sample buffer, each sample being a signed 16-bit little-endian pair
divided by 32768. -/
theorem decode_alignment :
    (∀ bytes : List Nat, bytes.length % 2 = 1 →
      decodePCM16 bytes = .error .unalignedFrame) ∧
    (∀ n : Nat, decodePCM16 (List.replicate (2 * n) 0) = .ok (List.replicate n 0)) ∧
    (∀ lo hi rest, pcm16Samples (lo :: hi :: rest) =
      ((toInt16 lo hi : ℚ) / 32768) :: pcm16Samples rest) := by
  refine ⟨?_, ?_, fun lo hi rest => rfl⟩
  · intro bytes h
    simp [decodePCM16, h]
  · intro n
    have hz : ∀ m : Nat, pcm16Samples (List.replicate (2 * m) 0) = List.replicate m 0 := by
      intro m
      induction m with
      | zero => rfl
      | succ k ih =>
        have h2 : 2 * (k + 1) = (2 * k) + 1 + 1 := by omega
        rw [h2, List.replicate_succ, List.replicate_succ, List.replicate_succ]
        show ((toInt16 0 0 : ℚ) / 32768) :: pcm16Samples (List.replicate (2 * k) 0)
          = 0 :: List.replicate k 0
        rw [ih]
        norm_num [toInt16]
    simp [decodePCM16, hz n]

/-- Witness for C6: an odd 3-byte payload is rejected, four zero bytes
decode to two zero samples. -/
theorem decode_alignment_witness :
    decodePCM16 [0, 0, 5] = .error .unalignedFrame ∧
    decodePCM16 [0, 0, 0, 0] = .ok [0, 0] := by
  constructor
  · exact decode_alignment.1 [0, 0, 5] (by decide)
  · have h := decode_alignment.2.1 2
    simpa using h

end SpeechCraft

namespace SpeechCraft

/-! ## Claim theorems for playback sessions and `playRawAudio` -/

/-- A finished node ignores an event. -/
theorem stepSession_finished (s : PlaySession) (e : SessEv) (h : s.src = .finished) :
    stepSession s e = s := by
  cases hs : s.src
  · rw [hs] at h; exact SrcState.noConfusion h
  · simp [stepSession, hs]

/-- A finished node ignores every further event. -/
theorem runSession_finished (evs : List SessEv) (s : PlaySession) (h : s.src = .finished) :
    runSession evs s = s := by
  induction evs with
  | nil => rfl
  | cons e rest ih =>
    show runSession rest (stepSession s e) = s
    rw [stepSession_finished s e h]
    exact ih

/-- Claim C2 counterexample: a session with a registered callback that is
preempted by the stop closure before any natural end still has its
callback invoked (the `ended` event fires on `stop()` as well), refuting
"never invoked if the session is preempted by calling the returned stop
function first". -/
theorem stop_preemption_fires_onEnded_cex :
    (runSession [SessEv.stopCall] (initSession true)).onEndedCount = 1 ∧
    ¬ (runSession [SessEv.stopCall] (initSession true)).onEndedCount = 0 := by
  decide

/-- Claim C2 (amended): for every playback session started by
`playRawAudio` with a caller-supplied `onEnded` callback, the callback is
invoked exactly once when the session finishes - whether by reaching its
natural end or by the stop closure preempting it - and is not invoked
while the session is still playing. -/
theorem onEnded_exactly_once (evs : List SessEv) (hasCb : Bool) :
    (runSession evs (initSession hasCb)).onEndedCount =
      if (runSession evs (initSession hasCb)).src = .finished ∧ hasCb = true
      then 1 else 0 := by
  cases evs with
  | nil =>
    simp [runSession, initSession]
  | cons e rest =>
    have h1 : runSession (e :: rest) (initSession hasCb) = fireEnded (initSession hasCb) := by
      show runSession rest (stepSession (initSession hasCb) e) = _
      rw [show stepSession (initSession hasCb) e = fireEnded (initSession hasCb) from rfl]
      exact runSession_finished rest _ rfl
    rw [h1]
    cases hasCb <;> simp [fireEnded, initSession]

/-- Claim C8: for every playback session, calling the stop closure twice
in a row, or calling it after the session has already reached natural
completion, never lets an error escape (second component always `false`)
and leaves the session finished - the controller state the specification
calls `Idle` (a `Stopped`/`Ended` session immediately resets to `Idle`,
i.e. nothing is rendering). -/
theorem stop_idempotent (s : PlaySession) :
    (stopClosure s).2 = false ∧
    (stopClosure (stopClosure s).1).2 = false ∧
    (stopClosure (stopClosure s).1).1 = (stopClosure s).1 ∧
    (stopClosure s).1.src = .finished ∧
    (stopClosure (stepSession s .naturalEnd)).2 = false ∧
    (stopClosure (stepSession s .naturalEnd)).1 = stepSession s .naturalEnd ∧
    (stopClosure (stepSession s .naturalEnd)).1.src = .finished := by
  obtain ⟨src, hoe, c⟩ := s
  cases src <;> simp [stopClosure, stopAttempt, stepSession, fireEnded]

/-- Claim C9 counterexample: with the context suspended and `resume()`
rejecting, `playRawAudio` resolves normally (the rejection is caught:
`rejectedWith = none`, the callback is invoked, a no-op stop is
returned) - the failure does not propagate to the caller as a
`DeviceUnavailable` playback error. -/
theorem resume_failure_swallowed_cex :
    playRawAudioRun ⟨true, false⟩ (some [0, 0]) true true =
      { rejectedWith := none, started := false, resumedBeforeStart := false,
        onEndedNow := true, stopNoop := true } ∧
    ¬ (playRawAudioRun ⟨true, false⟩ (some [0, 0]) true true).rejectedWith =
        some PlayFail.deviceUnavailable := by
  decide

/-- Claim C9 (amended): if the output device is suspended, `playRawAudio`
resumes it before rendering; if the resumption fails, the failure is
caught internally rather than propagated: the promise resolves, `onEnded`
is invoked immediately when supplied, a no-op stop function is returned
and no source node is started, so the playback state is back to `Idle`
and a subsequent play can be attempted. -/
theorem resume_behaviour (ctx : AudioCtxState) (decoded : Option (List Nat))
    (renderOk hasCb : Bool) :
    ((playRawAudioRun ctx decoded renderOk hasCb).started = true →
      ctx.suspended = true →
      (playRawAudioRun ctx decoded renderOk hasCb).resumedBeforeStart = true) ∧
    (ctx.suspended = true → ctx.resumeOk = false →
      playRawAudioRun ctx decoded renderOk hasCb =
        { rejectedWith := none, started := false, resumedBeforeStart := false,
          onEndedNow := hasCb, stopNoop := true }) := by
  obtain ⟨cs, cr⟩ := ctx
  constructor
  · intro hstart hsusp
    subst hsusp
    cases cr
    · simp [playRawAudioRun, pipelineTry] at hstart
    · rcases decoded with _ | bytes
      · simp [playRawAudioRun, pipelineTry] at hstart
      · rcases hdp : decodePCM16 bytes with e | v
        · simp [playRawAudioRun, pipelineTry, hdp] at hstart
        · cases renderOk
          · simp [playRawAudioRun, pipelineTry, hdp] at hstart
          · simp [playRawAudioRun, pipelineTry, hdp]
  · intro hsusp hres
    subst hsusp; subst hres
    simp [playRawAudioRun, pipelineTry]

/-- Witness for C9 (amended): a suspended-but-resumable context resumes
before the render starts, and a suspended context whose resume fails
yields the caught-failure result. -/
theorem resume_behaviour_witness :
    (playRawAudioRun ⟨true, true⟩ (some [0, 0]) true false).resumedBeforeStart = true ∧
    playRawAudioRun ⟨true, false⟩ (some [0, 0]) false true =
      { rejectedWith := none, started := false, resumedBeforeStart := false,
        onEndedNow := true, stopNoop := true } :=
  ⟨(resume_behaviour ⟨true, true⟩ (some [0, 0]) true false).1 (by decide) rfl,
   (resume_behaviour ⟨true, false⟩ (some [0, 0]) false true).2 rfl rfl⟩

/-- Claim C10: for every input and every internal failure (suspended
device whose resume fails, invalid base64, unaligned frame length, render
failure), `playRawAudio` never rejects: the promise always resolves, and
whenever no source node was started the catch path has run - the
`onEnded` callback was invoked exactly when one was supplied and the
caller received the no-op stop function (so every caller always receives
a callable stop handle). -/
theorem play_never_rejects (ctx : AudioCtxState) (decoded : Option (List Nat))
    (renderOk hasCb : Bool) :
    (playRawAudioRun ctx decoded renderOk hasCb).rejectedWith = none ∧
    ((playRawAudioRun ctx decoded renderOk hasCb).started = false →
      playRawAudioRun ctx decoded renderOk hasCb =
        { rejectedWith := none, started := false, resumedBeforeStart := false,
          onEndedNow := hasCb, stopNoop := true }) := by
  rcases hpt : pipelineTry ctx decoded renderOk with e | r
  · constructor
    · simp [playRawAudioRun, hpt]
    · intro _
      simp [playRawAudioRun, hpt]
  · constructor
    · simp [playRawAudioRun, hpt]
    · intro hstart
      simp [playRawAudioRun, hpt] at hstart

/-- Witness for C10 at a failing input: malformed base64 with an
`onEnded` callback supplied. -/
theorem play_never_rejects_witness :
    playRawAudioRun ⟨false, true⟩ none true true =
      { rejectedWith := none, started := false, resumedBeforeStart := false,
        onEndedNow := true, stopNoop := true } :=
  (play_never_rejects ⟨false, true⟩ none true true).2 (by decide)

end SpeechCraft

namespace SpeechCraft

/-! ## Helper lemmas for the studio state machine -/

/-- After stopping the tracked session, nothing renders: any other
rendering session would also have to be the tracked one. -/
theorem stopSrc_playing_false (s : St) (i : Nat) (hInv : DemoInv s)
    (href : s.stopDemoRef = some i) :
    ∀ x ∈ (stopSrc s i).sessions, x.playing = false := by
  intro x hx
  simp only [stopSrc] at hx
  obtain ⟨y, hy, rfl⟩ := List.mem_map.1 hx
  by_cases hid : y.id = i
  · simp [hid]
  · simp only [hid, if_false]
    cases hpy : y.playing
    · rfl
    · have h2 := (hInv.2 y hy hpy).2
      rw [href] at h2
      exact absurd (Option.some.inj h2).symm hid

/-- A state in which no session renders satisfies the demo invariant. -/
theorem demoInv_of_no_playing (t : St) (h : ∀ x ∈ t.sessions, x.playing = false) :
    DemoInv t := by
  refine ⟨?_, ?_⟩
  · have h0 : playingCount t = 0 := by
      unfold playingCount
      rw [List.countP_eq_zero]
      intro a ha
      simp [h a ha]
    omega
  · intro x hx hpx
    rw [h x hx] at hpx
    exact absurd hpx (by simp)

/-- The invariant transfers between states that agree on the sessions and
the demo-tracking fields. -/
theorem demoInv_congr (s t : St) (hs : t.sessions = s.sessions)
    (hp : t.isPlayingDemo = s.isPlayingDemo) (hr : t.stopDemoRef = s.stopDemoRef)
    (h : DemoInv s) : DemoInv t := by
  refine ⟨?_, ?_⟩
  · unfold playingCount
    rw [hs]
    exact h.1
  · intro x hx hpx
    rw [hs] at hx
    rw [hp, hr]
    exact h.2 x hx hpx

/-- Starting the demo session from a state in which nothing renders
re-establishes the invariant: the new session is the only one rendering
and is the one tracked by the updated fields. -/
theorem demoInv_start (s : St) (d : String)
    (hall : ∀ x ∈ s.sessions, x.playing = false) :
    DemoInv { startSrc s d true with isPlayingDemo := true, stopDemoRef := some s.nextId } := by
  have hsess : ({ startSrc s d true with
      isPlayingDemo := true, stopDemoRef := some s.nextId } : St).sessions =
      s.sessions ++ [{ id := s.nextId, playing := true, data := d, isDemo := true }] := rfl
  refine ⟨?_, ?_⟩
  · unfold playingCount
    rw [hsess, List.countP_append]
    have h0 : s.sessions.countP (fun x => x.playing) = 0 := by
      rw [List.countP_eq_zero]
      intro a ha
      simp [hall a ha]
    rw [h0]
    simp [List.countP_cons]
  · intro x hx hpx
    rw [hsess] at hx
    rcases List.mem_append.1 hx with hin | hnew
    · rw [hall x hin] at hpx
      exact absurd hpx (by simp)
    · have hxe : x = { id := s.nextId, playing := true, data := d, isDemo := true } := by
        simpa using hnew
      subst hxe
      exact ⟨rfl, rfl⟩

/-- With the toggle guard false, nothing renders: a rendering session
would make both toggle conjuncts true. -/
theorem no_playing_of_not_toggle (s : St)
    (htrack : ∀ x ∈ s.sessions, x.playing = true →
      s.isPlayingDemo = true ∧ s.stopDemoRef = some x.id)
    (htog : ¬(s.isPlayingDemo = true ∧ s.stopDemoRef.isSome = true)) :
    ∀ x ∈ s.sessions, x.playing = false := by
  intro x hx
  cases hpx : x.playing
  · rfl
  · refine absurd ⟨(htrack x hx hpx).1, ?_⟩ htog
    rw [(htrack x hx hpx).2]
    rfl

/-- Every studio event preserves the demo invariant, as long as it is not
a voice-preview event. -/
theorem demoInv_step (s : St) (op : Op) (hInv : DemoInv s)
    (hop : op.isPreview = false) : DemoInv (applyOp s op) := by
  obtain ⟨hcount, htrack⟩ := hInv
  cases op with
  | previewStart v => simp [Op.isPreview] at hop
  | previewFinish v g => simp [Op.isPreview] at hop
  | demoClick g =>
    show DemoInv (demoClick g s)
    by_cases hm : s.practiceMounted = false
    · simp only [demoClick, hm, if_true]
      exact ⟨hcount, htrack⟩
    · by_cases hsc : s.script = ""
      · simp only [demoClick, hm, if_false, hsc, if_true]
        exact ⟨hcount, htrack⟩
      · by_cases htog : s.isPlayingDemo = true ∧ s.stopDemoRef.isSome = true
        · obtain ⟨hp, hrs⟩ := htog
          obtain ⟨i, hi⟩ := Option.isSome_iff_exists.1 hrs
          have hcond : (s.isPlayingDemo = true ∧ s.stopDemoRef.isSome) := ⟨hp, hrs⟩
          simp only [demoClick, hm, if_false, hsc, hcond, if_true, hi]
          apply demoInv_of_no_playing
          intro x hx
          exact stopSrc_playing_false s i ⟨hcount, htrack⟩ hi x (by simpa using hx)
        · have hall := no_playing_of_not_toggle s htrack htog
          have hcond : ¬(s.isPlayingDemo = true ∧ s.stopDemoRef.isSome) := htog
          rcases hda : s.demoAudioData with _ | d
          · by_cases htr : trimEmpty s.script = true
            · simp only [demoClick, hm, if_false, hsc, hcond, hda, htr, if_true]
              exact ⟨hcount, htrack⟩
            · rcases g with _ | d2
              · simp only [demoClick, hm, if_false, hsc, hcond, hda, htr]
                exact demoInv_congr s _ rfl rfl rfl ⟨hcount, htrack⟩
              · simp only [demoClick, hm, if_false, hsc, hcond, hda, htr]
                exact demoInv_start _ d2 hall
          · simp only [demoClick, hm, if_false, hsc, hcond, hda]
            exact demoInv_start s d hall
  | srcEnded i =>
    show DemoInv (srcEnded i s)
    rcases hf : s.sessions.find? (fun x => x.id = i) with _ | sess
    · simp only [srcEnded, hf]
      exact ⟨hcount, htrack⟩
    · by_cases hps : sess.playing = true
      · have hsid : sess.id = i := by
          have := List.find?_some hf
          simpa using this
        have hmem : sess ∈ s.sessions := List.mem_of_find?_eq_some hf
        have href : s.stopDemoRef = some i := by
          rw [← hsid]
          exact (htrack sess hmem hps).2
        have hall := stopSrc_playing_false s i ⟨hcount, htrack⟩ href
        by_cases hd : sess.isDemo = true
        · simp only [srcEnded, hf, hps, if_true, hd]
          exact demoInv_of_no_playing _ (by intro x hx; exact hall x (by simpa using hx))
        · simp only [srcEnded, hf, hps, if_true, hd, if_false]
          exact demoInv_of_no_playing _ hall
      · simp only [srcEnded, hf, hps]
        simp only [if_false] at hps ⊢
        simp [hps]
        exact ⟨hcount, htrack⟩
  | voiceClick v =>
    show DemoInv (voiceClick v s)
    by_cases hm : s.practiceMounted = false
    · simp only [voiceClick, hm, if_true]
      exact ⟨hcount, htrack⟩
    · simp only [voiceClick, hm, if_false]
      exact demoInv_congr s _ rfl rfl rfl ⟨hcount, htrack⟩
  | gotoEditor =>
    show DemoInv (gotoEditor s)
    by_cases hm : s.practiceMounted = false
    · simp only [gotoEditor, hm, if_true]
      exact ⟨hcount, htrack⟩
    · rcases hr : s.stopDemoRef with _ | i
      · simp only [gotoEditor, hm, if_false, hr]
        apply demoInv_of_no_playing
        intro x hx
        cases hpx : x.playing
        · rfl
        · have h2 := (htrack x (by simpa using hx) hpx).2
          rw [hr] at h2
          exact Option.noConfusion h2
      · simp only [gotoEditor, hm, if_false, hr]
        apply demoInv_of_no_playing
        intro x hx
        exact stopSrc_playing_false s i ⟨hcount, htrack⟩ hr x (by simpa using hx)
  | gotoPractice =>
    show DemoInv (gotoPractice s)
    by_cases hm : s.practiceMounted = true
    · simp only [gotoPractice, hm, if_true]
      exact ⟨hcount, htrack⟩
    · simp only [gotoPractice, hm, if_false]
      exact demoInv_congr s _ rfl rfl rfl ⟨hcount, htrack⟩
  | editScript t =>
    show DemoInv (editScript t s)
    by_cases hm : s.practiceMounted = false
    · simp only [editScript, hm, if_true]
      exact demoInv_congr s _ rfl rfl rfl ⟨hcount, htrack⟩
    · simp only [editScript, hm, if_false]
      exact ⟨hcount, htrack⟩

/-- The initial state satisfies the demo invariant. -/
theorem demoInv_init : DemoInv initSt := by
  refine ⟨by simp [playingCount, initSt], ?_⟩
  intro x hx
  simp [initSt] at hx

/-- The demo invariant holds along any preview-free run. -/
theorem demoInv_foldl (ops : List Op) (s : St) (hs : DemoInv s)
    (h : ∀ op ∈ ops, op.isPreview = false) :
    DemoInv (ops.foldl applyOp s) := by
  induction ops generalizing s with
  | nil => exact hs
  | cons op rest ih =>
    exact ih (applyOp s op) (demoInv_step s op hs (h op (by simp)))
      (fun o ho => h o (by simp [ho]))

end SpeechCraft

namespace SpeechCraft

/-- Every event preserves the fact that an unmounted studio holds no
cached demo and has no preview outstanding (the component state is
destroyed at unmount). -/
theorem cleanInv_step (s : St) (op : Op)
    (h : s.practiceMounted = false →
      s.demoAudioData = none ∧ s.previewingVoiceId = none) :
    (applyOp s op).practiceMounted = false →
      (applyOp s op).demoAudioData = none ∧
      (applyOp s op).previewingVoiceId = none := by
  cases op with
  | demoClick g =>
    simp only [applyOp]
    by_cases hm : s.practiceMounted = false
    · have hid : demoClick g s = s := by
        unfold demoClick
        rw [if_pos hm]
      rw [hid]
      exact h
    · intro habs
      have hmp : (demoClick g s).practiceMounted = s.practiceMounted := by
        unfold demoClick startSrc
        repeat' split
        all_goals rfl
      rw [hmp] at habs
      exact absurd habs hm
  | previewStart v =>
    simp only [applyOp]
    by_cases hm : s.practiceMounted = false
    · have hid : previewStart v s = s := by
        unfold previewStart
        rw [if_pos hm]
      rw [hid]
      exact h
    · intro habs
      have hmp : (previewStart v s).practiceMounted = s.practiceMounted := by
        unfold previewStart
        repeat' split
        all_goals rfl
      rw [hmp] at habs
      exact absurd habs hm
  | previewFinish v g =>
    simp only [applyOp]
    intro habs
    have hmp : (previewFinish v g s).practiceMounted = s.practiceMounted := by
      unfold previewFinish startSrc
      repeat' split
      all_goals rfl
    rw [hmp] at habs
    obtain ⟨h1, h2⟩ := h habs
    have hid : previewFinish v g s = s := by
      unfold previewFinish
      rw [h2]
      simp
    rw [hid]
    exact ⟨h1, h2⟩
  | srcEnded i =>
    simp only [applyOp]
    intro habs
    have hpre : (srcEnded i s).practiceMounted = s.practiceMounted ∧
        (srcEnded i s).demoAudioData = s.demoAudioData ∧
        (srcEnded i s).previewingVoiceId = s.previewingVoiceId := by
      unfold srcEnded stopSrc
      repeat' split
      all_goals exact ⟨rfl, rfl, rfl⟩
    rw [hpre.1] at habs
    obtain ⟨h1, h2⟩ := h habs
    rw [hpre.2.1, hpre.2.2]
    exact ⟨h1, h2⟩
  | voiceClick v =>
    simp only [applyOp]
    by_cases hm : s.practiceMounted = false
    · have hid : voiceClick v s = s := by
        unfold voiceClick
        rw [if_pos hm]
      rw [hid]
      exact h
    · intro habs
      have hmp : (voiceClick v s).practiceMounted = s.practiceMounted := by
        unfold voiceClick
        repeat' split
        all_goals rfl
      rw [hmp] at habs
      exact absurd habs hm
  | gotoEditor =>
    simp only [applyOp]
    intro habs
    by_cases hm : s.practiceMounted = false
    · have hid : gotoEditor s = s := by
        unfold gotoEditor
        rw [if_pos hm]
      rw [hid]
      exact h hm
    · rcases hr : s.stopDemoRef with _ | i
      · have hid : gotoEditor s =
            { s with
              practiceMounted := false
              selectedVoice := "Puck"
              demoAudioData := none
              isPlayingDemo := false
              stopDemoRef := none
              previewingVoiceId := none } := by
          unfold gotoEditor
          rw [if_neg hm, hr]
        rw [hid]
        exact ⟨rfl, rfl⟩
      · have hid : gotoEditor s =
            { stopSrc s i with
              practiceMounted := false
              selectedVoice := "Puck"
              demoAudioData := none
              isPlayingDemo := false
              stopDemoRef := none
              previewingVoiceId := none } := by
          unfold gotoEditor
          rw [if_neg hm, hr]
        rw [hid]
        exact ⟨rfl, rfl⟩
  | gotoPractice =>
    simp only [applyOp]
    intro habs
    have hmp : (gotoPractice s).practiceMounted = true := by
      unfold gotoPractice
      split
      · assumption
      · rfl
    rw [hmp] at habs
    exact absurd habs (by simp)
  | editScript t =>
    simp only [applyOp]
    by_cases hm : s.practiceMounted = false
    · have hid : editScript t s = { s with script := t } := by
        unfold editScript
        rw [if_pos hm]
      rw [hid]
      intro _
      exact h hm
    · have hid : editScript t s = s := by
        unfold editScript
        rw [if_neg hm]
      rw [hid]
      exact h

/-- Along every run, an unmounted studio holds no cached demo and has no
preview outstanding. -/
theorem cleanInv_runOps (ops : List Op) :
    (runOps ops).practiceMounted = false →
      (runOps ops).demoAudioData = none ∧ (runOps ops).previewingVoiceId = none := by
  suffices hgen : ∀ (l : List Op) (s : St),
      (s.practiceMounted = false → s.demoAudioData = none ∧ s.previewingVoiceId = none) →
      ((l.foldl applyOp s).practiceMounted = false →
        (l.foldl applyOp s).demoAudioData = none ∧
        (l.foldl applyOp s).previewingVoiceId = none) by
    exact hgen ops initSt (fun _ => ⟨rfl, rfl⟩)
  intro l
  induction l with
  | nil => intro s hs; exact hs
  | cons op rest ih =>
    intro s hs
    exact ih (applyOp s op) (cleanInv_step s op hs)

/-! ## Claim theorems for the studio state machine -/

/-- Claim C1 counterexample: starting a demo playback and then issuing a
voice preview (which stops nothing) yields two concurrently rendering
audio sources, refuting the claim that a play issued while a previous
session is playing stops the previous session first. -/
theorem preview_overlaps_demo_cex :
    playingCount (runOps mutexCexOps) = 2 ∧
    ¬ playingCount (runOps mutexCexOps) ≤ 1 := by
  decide

/-- Claim C1 (amended): over sequences of demo playback, stopping,
natural completion, voice selection, mode switches and script edits -
i.e. every operation except voice previews - at most one audio source
renders at any instant; `handleGenerateAndPlayDemo` has toggle semantics
and never starts a new session while one is playing.  Voice previews
break the invariant: `handlePreviewVoice` starts playback without
stopping the current demo (see the counterexample). -/
theorem demo_mutual_exclusion (ops : List Op)
    (h : ∀ op ∈ ops, op.isPreview = false) :
    playingCount (runOps ops) ≤ 1 :=
  (demoInv_foldl ops initSt demoInv_init h).1

/-- Witness for C1 (amended) on a concrete preview-free sequence with a
generate-and-play, a toggle stop, a natural end and a cached replay. -/
theorem demo_mutual_exclusion_witness :
    (∀ op ∈ demoOnlyOps, op.isPreview = false) ∧
    playingCount (runOps demoOnlyOps) ≤ 1 :=
  ⟨by decide, demo_mutual_exclusion demoOnlyOps (by decide)⟩

/-- Claim C3 counterexample: after generating and playing, re-clicking
the already-selected voice leaves the key (voice id, script prefix)
unchanged but clears the cache, so the next play request re-invokes
generation (the count rises from 1 to 2) instead of returning the cached
asset. -/
theorem same_key_regenerates_cex :
    (runOps cacheCexOps).demoGenCount = 2 ∧
    (runOps (cacheCexOps.take 3)).demoGenCount = 1 ∧
    cacheKey (runOps (cacheCexOps.take 2)) = cacheKey (runOps (cacheCexOps.take 5)) := by
  decide

/-- Claim C3 (amended): a second play request finding the cache populated
plays the cached asset without re-invoking generation (provided no
voice-selection click intervened - every such click clears the entry,
even when it re-selects the current voice and leaves the key unchanged);
the entry is removed on every voice-selection click and whenever the user
submits new source text (submission happens in editor mode, where the
unmounted studio holds no cache); and a failed generation stores
nothing. -/
theorem cache_behaviour :
    (∀ (s : St) (d : String) (g : Option String),
      s.practiceMounted = true → s.script ≠ "" → s.isPlayingDemo = false →
      s.demoAudioData = some d →
      (demoClick g s).demoGenCount = s.demoGenCount ∧
      (demoClick g s).sessions =
        s.sessions ++ [{ id := s.nextId, playing := true, data := d, isDemo := true }]) ∧
    (∀ (s : St) (v : String), s.practiceMounted = true →
      (voiceClick v s).demoAudioData = none) ∧
    (∀ (ops : List Op) (t : String), (runOps ops).practiceMounted = false →
      (editScript t (runOps ops)).demoAudioData = none) ∧
    (∀ s : St, (demoClick none s).demoAudioData = s.demoAudioData) := by
  refine ⟨?_, ?_, ?_, ?_⟩
  · intro s d g hm hsc hp hda
    have hm2 : ¬ s.practiceMounted = false := by simp [hm]
    have htog : ¬ (s.isPlayingDemo = true ∧ s.stopDemoRef.isSome = true) := by
      intro hc
      rw [hp] at hc
      exact Bool.noConfusion hc.1
    unfold demoClick
    rw [if_neg hm2, if_neg hsc, if_neg htog, hda]
    exact ⟨rfl, rfl⟩
  · intro s v hm
    unfold voiceClick
    rw [if_neg (by simp [hm] : ¬ s.practiceMounted = false)]
  · intro ops t hm
    have h2 := cleanInv_runOps ops hm
    unfold editScript
    rw [if_pos hm]
    exact h2.1
  · intro s
    unfold demoClick startSrc
    repeat' split
    all_goals first
      | rfl
      | (rename_i heq; exact absurd heq (by simp))

/-- Witness for C3 (amended) at concrete states: a cache-hit replay does
not re-invoke generation, a voice click clears the cache, a text
submission finds no cache, and a failed generation stores nothing. -/
theorem cache_behaviour_witness :
    (demoClick none (runOps cacheHitOps)).demoGenCount = (runOps cacheHitOps).demoGenCount ∧
    (voiceClick "Kore" (runOps cacheHitOps)).demoAudioData = none ∧
    (editScript "new text" (runOps [Op.editScript "a"])).demoAudioData = none ∧
    (demoClick none initSt).demoAudioData = initSt.demoAudioData :=
  ⟨(cache_behaviour.1 (runOps cacheHitOps) "d1" none (by decide) (by decide)
      (by decide) (by decide)).1,
   cache_behaviour.2.1 (runOps cacheHitOps) "Kore" (by decide),
   cache_behaviour.2.2.1 [Op.editScript "a"] "new text" (by decide),
   cache_behaviour.2.2.2 initSt⟩

/-- Claim C7: a voice-preview request for a key whose request is still
outstanding is rejected silently - the state is unchanged (in particular
the generation function is not invoked again) and no error is raised;
this is the guard `if (previewingVoiceId === voice.id) return`. -/
theorem single_flight (s : St) (v : String) (h : s.previewingVoiceId = some v) :
    previewStart v s = s ∧ (previewStart v s).previewGenCount = s.previewGenCount := by
  have he : previewStart v s = s := by
    unfold previewStart
    by_cases hm : s.practiceMounted = false
    · rw [if_pos hm]
    · rw [if_neg hm, if_pos h]
  exact ⟨he, by rw [he]⟩

/-- Witness for C7 at a concrete state with an outstanding preview for
the same voice. -/
theorem single_flight_witness :
    (runOps inFlightOps).previewingVoiceId = some "Puck" ∧
    previewStart "Puck" (runOps inFlightOps) = runOps inFlightOps :=
  ⟨by decide, (single_flight (runOps inFlightOps) "Puck" (by decide)).1⟩

end SpeechCraft
